import Mathlib

set_option linter.unusedVariables false

/-
Verification development for the puppeteer-command-server repository.

Shallow embedding of the two core components:
  * the tab registry / browser lifecycle manager (src/browser/BrowserManager.ts),
  * the multi-strategy authentication middleware (src/auth/index.ts and the
    browser-proxied variant in the unnamed auth module).

Backend effects (puppeteer launch, page operations, JWKS fetch and signature
checking, file I/O for the API key) are modelled as explicit oracle parameters
of type Except String _ passed to each operation: an oracle value .ok v is the
backend call resolving with v, and .error e is the backend call rejecting with
an error whose string rendering is e.  The registry state (the browsers map and
the tabs map) is passed and returned explicitly.
-/

namespace PCS

/-- The two domain error kinds thrown by the BrowserManager
(src/types/index.ts): TabNotFoundError carries the missing tab id,
BrowserError carries a human-readable message. -/
inductive BMError where
  | tabNotFound (tabId : String)
  | browserError (msg : String)
deriving DecidableEq, Repr

/-- A tracked tab entry: the value type of the tabs map,
{ page: Page; visible: boolean }.  The page handle is modelled by an
abstract numeric identity; the field named visible in the source stores
the headless flag of the owning mode. -/
structure Tab where
  pageId : Nat
  visible : Bool
deriving DecidableEq, Repr

/-- The browsers map: Map(boolean -> Browser | null) with exactly the two
keys true (headless) and false (visible), both initialised to null in the
constructor.  Browser handles are modelled by abstract numeric identities. -/
structure BrowserSlots where
  headlessB : Option Nat
  headedB : Option Nat
deriving DecidableEq, Repr

/-- browsers.get(mode). -/
def BrowserSlots.get (s : BrowserSlots) (mode : Bool) : Option Nat :=
  if mode then s.headlessB else s.headedB

/-- browsers.set(mode, v). -/
def BrowserSlots.set (s : BrowserSlots) (mode : Bool) (v : Option Nat) : BrowserSlots :=
  if mode then { s with headlessB := v } else { s with headedB := v }

/-- The mutable state of a BrowserManager instance: the per-mode browser
slots and the tabs map (tab id -> entry), the latter modelled as an
association list. -/
structure BMState where
  browsers : BrowserSlots
  tabs : List (String × Tab)
deriving DecidableEq, Repr

/-- State right after the constructor ran: both slots null, no tabs. -/
def initialState : BMState := ⟨⟨none, none⟩, []⟩

/-- tabs.set(tabId, tab): JS Map.set overwrites any previous binding of the key. -/
def setTab (tabs : List (String × Tab)) (tabId : String) (tab : Tab) :
    List (String × Tab) :=
  (tabId, tab) :: tabs.filter (fun p => !(p.1 == tabId))

/-- tabs.delete(tabId). -/
def delTab (tabs : List (String × Tab)) (tabId : String) : List (String × Tab) :=
  tabs.filter (fun p => !(p.1 == tabId))

/-- OpenTabRequest from src/types/index.ts: { url: string; headless?: boolean }. -/
structure OpenTabRequest where
  url : String
  headless : Option Bool
deriving DecidableEq, Repr

/-- TabInfo from src/types/index.ts (title is always produced by getTabs). -/
structure TabInfo where
  id : String
  url : String
  title : String
  headless : Bool
deriving DecidableEq, Repr

/-- BrowserManager.close(): closes every non-null browser, nulls both slots
and clears the tabs map. -/
def close (_st : BMState) : BMState := ⟨⟨none, none⟩, []⟩

/-- BrowserManager.initialize(headless): first awaits this.close(), then
resolves the executable and launches (both folded into the launch oracle:
.ok b is a successful launch of browser handle b, .error e any failure of
getChromePath or puppeteer.launch); on success stores the browser in the
mode's slot, on failure throws
BrowserError("Failed to initialize browser: ..."). -/
def initializeBrowser (st : BMState) (headless : Bool) (launch : Except String Nat) :
    Except BMError Unit × BMState :=
  let st1 := close st
  match launch with
  | .error e => (.error (.browserError ("Failed to initialize browser: " ++ e)), st1)
  | .ok b => (.ok (), { st1 with browsers := st1.browsers.set headless (some b) })

/-- BrowserManager.openTab(request): lazily initializes the requested mode if
its slot is null (an initialize failure propagates unwrapped), then creates a
page (newPage oracle), registers the tab under a fresh id, and navigates when
request.url is truthy (goto oracle); newPage/goto failures are wrapped as
BrowserError("Failed to open tab: ...").  Note the tab is put into the map
before the navigation, and the goto failure path does not remove it. -/
def openTab (st : BMState) (request : OpenTabRequest) (launch : Except String Nat)
    (newPage : Except String Nat) (freshId : String) (goto : Except String Unit) :
    Except BMError String × BMState :=
  let headless := request.headless.getD true
  let initP : Except BMError Unit × BMState :=
    match st.browsers.get headless with
    | none => initializeBrowser st headless launch
    | some _ => (.ok (), st)
  match initP with
  | (.error e, st1) => (.error e, st1)
  | (.ok _, st1) =>
    match st1.browsers.get headless with
    | none => (.error (.browserError "Browser not initialized"), st1)
    | some _ =>
      match newPage with
      | .error e => (.error (.browserError ("Failed to open tab: " ++ e)), st1)
      | .ok pg =>
        let st2 := { st1 with tabs := setTab st1.tabs freshId ⟨pg, headless⟩ }
        if request.url ≠ "" then
          match goto with
          | .ok _ => (.ok freshId, st2)
          | .error e => (.error (.browserError ("Failed to open tab: " ++ e)), st2)
        else (.ok freshId, st2)

/-- The disconnected handler registered in initialize: deletes every tab of
the disconnected mode and nulls that mode's slot. -/
def disconnectEvent (st : BMState) (headless : Bool) : BMState :=
  { browsers := st.browsers.set headless none,
    tabs := st.tabs.filter (fun p => !(p.2.visible == headless)) }

/-- The page close handler registered in openTab: deletes the tab entry. -/
def pageCloseEvent (st : BMState) (tabId : String) : BMState :=
  { st with tabs := delTab st.tabs tabId }

/-- BrowserManager.navigateTab. -/
def navigateTab (st : BMState) (tabId : String) (url : String)
    (goto : Except String Unit) : Except BMError Unit :=
  match st.tabs.lookup tabId with
  | none => .error (.tabNotFound tabId)
  | some _ =>
    match goto with
    | .ok u => .ok u
    | .error e => .error (.browserError ("Failed to navigate tab: " ++ e))

/-- BrowserManager.screenshotTab: the oracle resolves with the base64 string. -/
def screenshotTab (st : BMState) (tabId : String) (fullPage : Bool)
    (shot : Except String String) : Except BMError String :=
  match st.tabs.lookup tabId with
  | none => .error (.tabNotFound tabId)
  | some _ =>
    match shot with
    | .ok s => .ok s
    | .error e => .error (.browserError ("Failed to take screenshot: " ++ e))

/-- BrowserManager.clickElement: with waitForNavigation the click races a
navigation wait; either way the overall backend outcome is one oracle. -/
def clickElement (st : BMState) (tabId : String) (selector : String)
    (waitForNavigation : Bool) (backend : Except String Unit) : Except BMError Unit :=
  match st.tabs.lookup tabId with
  | none => .error (.tabNotFound tabId)
  | some _ =>
    match backend with
    | .ok u => .ok u
    | .error e => .error (.browserError ("Failed to click element: " ++ e))

/-- BrowserManager.hoverElement. -/
def hoverElement (st : BMState) (tabId : String) (selector : String)
    (backend : Except String Unit) : Except BMError Unit :=
  match st.tabs.lookup tabId with
  | none => .error (.tabNotFound tabId)
  | some _ =>
    match backend with
    | .ok u => .ok u
    | .error e => .error (.browserError ("Failed to hover element: " ++ e))

/-- BrowserManager.fillField. -/
def fillField (st : BMState) (tabId : String) (selector : String) (value : String)
    (backend : Except String Unit) : Except BMError Unit :=
  match st.tabs.lookup tabId with
  | none => .error (.tabNotFound tabId)
  | some _ =>
    match backend with
    | .ok u => .ok u
    | .error e => .error (.browserError ("Failed to fill field: " ++ e))

/-- BrowserManager.selectOption. -/
def selectOption (st : BMState) (tabId : String) (selector : String) (value : String)
    (backend : Except String Unit) : Except BMError Unit :=
  match st.tabs.lookup tabId with
  | none => .error (.tabNotFound tabId)
  | some _ =>
    match backend with
    | .ok u => .ok u
    | .error e => .error (.browserError ("Failed to select option: " ++ e))

/-- BrowserManager.evaluateScript: the oracle resolves with the serialized
evaluation result. -/
def evaluateScript (st : BMState) (tabId : String) (script : String)
    (backend : Except String String) : Except BMError String :=
  match st.tabs.lookup tabId with
  | none => .error (.tabNotFound tabId)
  | some _ =>
    match backend with
    | .ok v => .ok v
    | .error e => .error (.browserError ("Failed to evaluate script: " ++ e))

/-- BrowserManager.closeTab: closes the page, removes the entry, and when no
tab of the same mode is left also closes that mode's browser and nulls its
slot.  A page.close failure leaves the state untouched; a browser.close
failure happens after the tab was deleted but before the slot was nulled. -/
def closeTab (st : BMState) (tabId : String) (pageClose : Except String Unit)
    (browserClose : Except String Unit) : Except BMError Unit × BMState :=
  match st.tabs.lookup tabId with
  | none => (.error (.tabNotFound tabId), st)
  | some tab =>
    match pageClose with
    | .error e => (.error (.browserError ("Failed to close tab: " ++ e)), st)
    | .ok _ =>
      let tabs1 := delTab st.tabs tabId
      let headless := tab.visible
      let anyTabsLeft := tabs1.any (fun p => p.2.visible == headless)
      if anyTabsLeft then (.ok (), { st with tabs := tabs1 })
      else
        match st.browsers.get headless with
        | some _ =>
          match browserClose with
          | .ok _ => (.ok (), ⟨st.browsers.set headless none, tabs1⟩)
          | .error e =>
            (.error (.browserError ("Failed to close tab: " ++ e)), { st with tabs := tabs1 })
        | none => (.ok (), { st with tabs := tabs1 })

/-- BrowserManager.bringToFront. -/
def bringToFront (st : BMState) (tabId : String)
    (backend : Except String Unit) : Except BMError Unit :=
  match st.tabs.lookup tabId with
  | none => .error (.tabNotFound tabId)
  | some _ =>
    match backend with
    | .ok u => .ok u
    | .error e => .error (.browserError ("Failed to bring tab to front: " ++ e))

/-- BrowserManager.focusElement. -/
def focusElement (st : BMState) (tabId : String) (selector : String)
    (backend : Except String Unit) : Except BMError Unit :=
  match st.tabs.lookup tabId with
  | none => .error (.tabNotFound tabId)
  | some _ =>
    match backend with
    | .ok u => .ok u
    | .error e => .error (.browserError ("Failed to focus element: " ++ e))

/-- BrowserManager.goBack. -/
def goBack (st : BMState) (tabId : String)
    (backend : Except String Unit) : Except BMError Unit :=
  match st.tabs.lookup tabId with
  | none => .error (.tabNotFound tabId)
  | some _ =>
    match backend with
    | .ok u => .ok u
    | .error e => .error (.browserError ("Failed to go back: " ++ e))

/-- BrowserManager.goForward. -/
def goForward (st : BMState) (tabId : String)
    (backend : Except String Unit) : Except BMError Unit :=
  match st.tabs.lookup tabId with
  | none => .error (.tabNotFound tabId)
  | some _ =>
    match backend with
    | .ok u => .ok u
    | .error e => .error (.browserError ("Failed to go forward: " ++ e))

/-- BrowserManager.reloadTab. -/
def reloadTab (st : BMState) (tabId : String) (waitUntil : Option String)
    (backend : Except String Unit) : Except BMError Unit :=
  match st.tabs.lookup tabId with
  | none => .error (.tabNotFound tabId)
  | some _ =>
    match backend with
    | .ok u => .ok u
    | .error e => .error (.browserError ("Failed to reload tab: " ++ e))

/-- BrowserManager.waitForSelector. -/
def waitForSelector (st : BMState) (tabId : String) (selector : String)
    (timeout : Option Nat) (visible : Option Bool)
    (backend : Except String Unit) : Except BMError Unit :=
  match st.tabs.lookup tabId with
  | none => .error (.tabNotFound tabId)
  | some _ =>
    match backend with
    | .ok u => .ok u
    | .error e => .error (.browserError ("Failed to wait for selector: " ++ e))

/-- BrowserManager.waitForFunction. -/
def waitForFunction (st : BMState) (tabId : String) (fn : String)
    (timeout : Option Nat) (backend : Except String Unit) : Except BMError Unit :=
  match st.tabs.lookup tabId with
  | none => .error (.tabNotFound tabId)
  | some _ =>
    match backend with
    | .ok u => .ok u
    | .error e => .error (.browserError ("Failed to wait for function: " ++ e))

/-- BrowserManager.waitForNavigation. -/
def waitForNavigation (st : BMState) (tabId : String)
    (timeout : Option Nat) (waitUntil : Option String)
    (backend : Except String Unit) : Except BMError Unit :=
  match st.tabs.lookup tabId with
  | none => .error (.tabNotFound tabId)
  | some _ =>
    match backend with
    | .ok u => .ok u
    | .error e => .error (.browserError ("Failed to wait for navigation: " ++ e))

/-- BrowserManager.getTabUrl: the oracle resolves with page.url(). -/
def getTabUrl (st : BMState) (tabId : String)
    (backend : Except String String) : Except BMError String :=
  match st.tabs.lookup tabId with
  | none => .error (.tabNotFound tabId)
  | some _ =>
    match backend with
    | .ok v => .ok v
    | .error e => .error (.browserError ("Failed to get tab URL: " ++ e))

/-- BrowserManager.getTabs: one TabInfo per tracked tab, URL and title read
live from the page (modelled by the pageUrl/pageTitle environments on page
handles); the headless field is literally false in the source
("We'll track this if needed"). -/
def getTabs (st : BMState) (pageUrl : Nat → String) (pageTitle : Nat → String) :
    List TabInfo :=
  st.tabs.map (fun p =>
    { id := p.1, url := pageUrl p.2.pageId, title := pageTitle p.2.pageId,
      headless := false })

/-- Modelled from the spec: getPageByTabId is a BrowserManager method used by
the browser-proxied JWT verifier but absent from the BrowserManager source
included here; per the spec the registry maintains "a mapping from tab
identifiers to page handles", so the method resolves a tab id to its page
handle, or nothing when the id is not tracked. -/
def getPageByTabId (st : BMState) (tabId : String) : Option Nat :=
  (st.tabs.lookup tabId).map (fun t => t.pageId)

/-
Authentication middleware (src/auth/index.ts).  The stored API key produced
by loadApiKey() is a parameter (validKey); the single jose jwtVerify call is
an oracle of type Except String Unit.
-/

/-- Config.auth.apiKey from src/types/index.ts. -/
structure ApiKeyCfg where
  enabled : Option Bool
deriving DecidableEq, Repr

/-- Config.auth.jwt from src/types/index.ts. -/
structure JwtCfg where
  proxy : Option Bool
  enabled : Option Bool
  issuer : Option String
  audience : Option String
  jwksUrl : Option String
deriving DecidableEq, Repr

/-- Config.auth from src/types/index.ts. -/
structure AuthCfg where
  apiKey : Option ApiKeyCfg
  jwt : Option JwtCfg
deriving DecidableEq, Repr

/-- Config from src/types/index.ts. -/
structure Config where
  chromePath : Option String
  port : Nat
  auth : Option AuthCfg
deriving DecidableEq, Repr

/-- The request headers the middleware reads: the source looks up both
spellings of the api key header and the authorization header. -/
structure Req where
  xApiKey : Option String
  xApiKeyUpper : Option String
  authorization : Option String
deriving DecidableEq, Repr

/-- req.headers with the JS expression
(req.headers["x-api-key"] || req.headers["X-API-KEY"]): a present but empty
lower-case header is falsy and falls through to the upper-case one. -/
def providedApiKey (req : Req) : Option String :=
  match req.xApiKey with
  | some k => if k = "" then req.xApiKeyUpper else some k
  | none => req.xApiKeyUpper

/-- verifyApiKey: byte-for-byte comparison against the stored key. -/
def verifyApiKey (providedKey : String) (validKey : String) : Bool :=
  providedKey == validKey

/-- apiKeyEnabled: config.auth?.apiKey?.enabled !== false (default true). -/
def apiKeyEnabled (config : Config) : Bool :=
  !(((config.auth.bind (fun a => a.apiKey)).bind (fun k => k.enabled)) == some false)

/-- jwtEnabled: config.auth?.jwt?.enabled === true (default false). -/
def jwtEnabled (config : Config) : Bool :=
  ((config.auth.bind (fun a => a.jwt)).bind (fun j => j.enabled)) == some true

/-- verifyJWT from src/auth/index.ts: false when the jwt config or its
jwksUrl is falsy (absent or empty); otherwise the single jwtVerify call
resolving means true and any rejection (network, signature, expiry,
issuer/audience mismatch, malformed token) is caught and becomes false. -/
def verifyJWT (token : String) (config : Option JwtCfg)
    (jwtVerifyOutcome : Except String Unit) : Bool :=
  match config with
  | none => false
  | some c =>
    match c.jwksUrl with
    | none => false
    | some u =>
      if u = "" then false
      else
        match jwtVerifyOutcome with
        | .ok _ => true
        | .error _ => false

/-- The API-key strategy closure: true only when a truthy key was provided
and it matches the stored key. -/
def apiKeyStrategy (req : Req) (validKey : String) : Bool :=
  match providedApiKey req with
  | some k => !(k == "") && verifyApiKey k validKey
  | none => false

/-- JS String.prototype.startsWith, modelled on the character sequence. -/
def strStartsWith (s pre : String) : Bool := pre.data.isPrefixOf s.data

/-- The JWT strategy closure: requires an Authorization header starting with
"Bearer "; otherwise false without any verification. -/
def jwtStrategy (req : Req) (jwtCfg : Option JwtCfg)
    (jwtVerifyOutcome : Except String Unit) : Bool :=
  match req.authorization with
  | some authHeader =>
    if strStartsWith authHeader "Bearer " then
      verifyJWT (authHeader.drop 7) jwtCfg jwtVerifyOutcome
    else false
  | none => false

/-- The ordered list of enabled strategy results, as pushed by
createAuthMiddleware: API key first (if enabled), JWT second (if enabled and
the jwt config object exists). -/
def authStrategies (config : Config) (validKey : String) (req : Req)
    (jwtVerifyOutcome : Except String Unit) : List Bool :=
  (if apiKeyEnabled config then [apiKeyStrategy req validKey] else []) ++
  (if jwtEnabled config && (config.auth.bind (fun a => a.jwt)).isSome then
    [jwtStrategy req (config.auth.bind (fun a => a.jwt)) jwtVerifyOutcome]
  else [])

/-- The strategy loop: evaluate in order, break at the first success. -/
def runStrategies : List Bool → Bool
  | [] => false
  | s :: rest => if s then true else runStrategies rest

/-- The supported-methods list interpolated into the invalid-credentials
message. -/
def supportedMethods (config : Config) : List String :=
  (if apiKeyEnabled config then ["API key (x-api-key header)"] else []) ++
  (if jwtEnabled config then ["JWT Bearer token"] else [])

/-- The message of the no-strategies 401 response. -/
def noAuthMsg : String := "Unauthorized: No authentication methods configured"

/-- The message of the all-strategies-failed 401 response. -/
def invalidCredsMsg (config : Config) : String :=
  "Unauthorized: Invalid or missing credentials. Supported methods: " ++
    String.intercalate ", " (supportedMethods config)

/-- What the middleware does with the response: either a JSON denial with a
status and a code, or calling the next handler. -/
inductive AuthOutcome where
  | denied (status : Nat) (code : String) (msg : String)
  | nextCalled
deriving DecidableEq, Repr

/-- The code field of a denial, none when next was called. -/
def AuthOutcome.code : AuthOutcome → Option String
  | .denied _ c _ => some c
  | .nextCalled => none

/-- createAuthMiddleware from src/auth/index.ts (the in-process JWT
variant): builds the ordered strategy list, denies with NO_AUTH_CONFIGURED
when it is empty, runs the strategies with first-success short-circuit,
denies with INVALID_CREDENTIALS when all fail, otherwise calls next. -/
def createAuthMiddleware (config : Config) (validKey : String) (req : Req)
    (jwtVerifyOutcome : Except String Unit) : AuthOutcome :=
  let strategies := authStrategies config validKey req jwtVerifyOutcome
  if strategies.isEmpty then
    .denied 401 "NO_AUTH_CONFIGURED" noAuthMsg
  else if runStrategies strategies then
    .nextCalled
  else
    .denied 401 "INVALID_CREDENTIALS" (invalidCredsMsg config)

/-
Browser-proxied JWT verification (the unnamed auth module variant,
src/unnamed/part_003): verifyJWTInBrowser drives the BrowserManager
singleton through an open / evaluate / close cycle.
-/

/-- The backend oracles consumed by one verifyJWTInBrowser call: the
openTab internals (launch, newPage, the generated tab id, the navigation to
the verification page), the page.evaluate outcome (.ok r is the in-page
doVerifyJWTInBrowser returning the boolean r, .error e is the evaluate call
rejecting), and the closeTab internals. -/
structure BrowserVerifyOracle where
  launch : Except String Nat
  newPage : Except String Nat
  freshId : String
  goto : Except String Unit
  evalResult : Except String Bool
  pageClose : Except String Unit
  browserClose : Except String Unit
deriving Repr

/-- verifyJWTInBrowser: opens a headless tab on the self-hosted
/jwt-verify page, resolves its page handle, evaluates the page-context
verification function (which renders its boolean as the string "valid" or
"invalid"), closes the tab, and answers whether the page reported "valid";
any thrown step is caught and becomes false, with whatever registry state
the completed steps left behind. -/
def verifyJWTInBrowser (st : BMState) (token : String) (config : JwtCfg)
    (port : Nat) (o : BrowserVerifyOracle) : Bool × BMState :=
  let verifyUrl := "http://localhost:" ++ toString port ++ "/jwt-verify"
  match openTab st ⟨verifyUrl, some true⟩ o.launch o.newPage o.freshId o.goto with
  | (.error _, st1) => (false, st1)
  | (.ok tabId, st1) =>
    match getPageByTabId st1 tabId with
    | none => (false, st1)
    | some _page =>
      match o.evalResult with
      | .error _ => (false, st1)
      | .ok r =>
        let resultText := if r then "valid" else "invalid"
        match closeTab st1 tabId o.pageClose o.browserClose with
        | (.error _, st2) => (false, st2)
        | (.ok _, st2) => (resultText == "valid", st2)

/-- verifyJWTInProcess from the unnamed auth module: textually the same
in-process verification as verifyJWT above. -/
def verifyJWTInProcess (token : String) (config : Option JwtCfg)
    (jwtVerifyOutcome : Except String Unit) : Bool :=
  match config with
  | none => false
  | some c =>
    match c.jwksUrl with
    | none => false
    | some u =>
      if u = "" then false
      else
        match jwtVerifyOutcome with
        | .ok _ => true
        | .error _ => false

/-- The JWT strategy closure of the proxy-capable middleware: with a Bearer
header it dispatches on config.auth.jwt.proxy between the browser round
trip (which touches the registry state) and the in-process check. -/
def jwtStrategyProxy (req : Req) (config : Config) (st : BMState)
    (o : BrowserVerifyOracle) (inProcOutcome : Except String Unit) :
    Bool × BMState :=
  match req.authorization with
  | some authHeader =>
    if strStartsWith authHeader "Bearer " then
      let token := authHeader.drop 7
      let jwtCfg := config.auth.bind (fun a => a.jwt)
      if (jwtCfg.bind (fun j => j.proxy)) == some true then
        match jwtCfg with
        | some c => verifyJWTInBrowser st token c config.port o
        | none => (false, st)
      else (verifyJWTInProcess token jwtCfg inProcOutcome, st)
    else (false, st)
  | none => (false, st)

/-- createAuthMiddleware from the unnamed auth module (proxy-capable
variant).  The strategy loop is unrolled over the at most two strategies:
API key first (when enabled), then JWT (when enabled), stopping at the
first success; the registry state is only touched when the JWT strategy
actually runs its browser round trip. -/
def createAuthMiddlewareProxy (config : Config) (validKey : String) (req : Req)
    (st : BMState) (o : BrowserVerifyOracle)
    (inProcOutcome : Except String Unit) : AuthOutcome × BMState :=
  let akEnabled := apiKeyEnabled config
  let jEnabled := jwtEnabled config && (config.auth.bind (fun a => a.jwt)).isSome
  if !akEnabled && !jEnabled then
    (.denied 401 "NO_AUTH_CONFIGURED" noAuthMsg, st)
  else if akEnabled && apiKeyStrategy req validKey then
    (.nextCalled, st)
  else if jEnabled then
    match jwtStrategyProxy req config st o inProcOutcome with
    | (true, st1) => (.nextCalled, st1)
    | (false, st1) => (.denied 401 "INVALID_CREDENTIALS" (invalidCredsMsg config), st1)
  else
    (.denied 401 "INVALID_CREDENTIALS" (invalidCredsMsg config), st)

/-
Transition system over the registry state: one step per completed
state-changing operation or event handler.  The per-tab operations other
than closeTab never write the registry state (they only read the tabs map),
so they contribute no transitions.
-/

/-- One completed state-changing registry operation or event. -/
inductive Step : BMState → BMState → Prop where
  | initializeOp (st : BMState) (headless : Bool) (launch : Except String Nat) :
      Step st (initializeBrowser st headless launch).2
  | openTabOp (st : BMState) (request : OpenTabRequest) (launch : Except String Nat)
      (newPage : Except String Nat) (freshId : String) (goto : Except String Unit) :
      Step st (openTab st request launch newPage freshId goto).2
  | closeTabOp (st : BMState) (tabId : String) (pageClose : Except String Unit)
      (browserClose : Except String Unit) :
      Step st (closeTab st tabId pageClose browserClose).2
  | closeOp (st : BMState) : Step st (close st)
  | disconnectOp (st : BMState) (headless : Bool) : Step st (disconnectEvent st headless)
  | pageCloseOp (st : BMState) (tabId : String) : Step st (pageCloseEvent st tabId)

/-- States reachable from the freshly constructed manager. -/
inductive Reachable : BMState → Prop where
  | init : Reachable initialState
  | step {st st' : BMState} : Reachable st → Step st st' → Reachable st'

/-- The mode-consistency invariant: every tracked tab's mode flag points at
a non-null browser slot. -/
def TabModeInv (st : BMState) : Prop :=
  ∀ p ∈ st.tabs, (st.browsers.get p.2.visible).isSome = true

/-
Concrete sample states, configurations and requests used to exercise the
theorems on closed inputs.
-/

/-- A registry with one running headless browser owning one tab. -/
def sampleState : BMState := ⟨⟨some 1, none⟩, [("t1", ⟨5, true⟩)]⟩

/-- A registry with one running headless browser owning two tabs. -/
def sampleState2 : BMState := ⟨⟨some 1, none⟩, [("t1", ⟨5, true⟩), ("t2", ⟨6, true⟩)]⟩

/-- End-to-end scenario C, first call: POST /api/tabs/open with
headless:true against a fresh manager, all backend calls succeeding. -/
def scenarioCFirst : Except BMError String × BMState :=
  openTab initialState ⟨"https://example.com", some true⟩ (.ok 1) (.ok 10) "tab-1" (.ok ())

/-- End-to-end scenario C, second call: POST /api/tabs/open with
headless:false against the state the first call left, all backend calls
succeeding. -/
def scenarioCSecond : Except BMError String × BMState :=
  openTab scenarioCFirst.2 ⟨"https://example.com", some false⟩ (.ok 2) (.ok 20) "tab-2" (.ok ())

/-- A configuration with both authentication strategies enabled. -/
def cfgBoth : Config :=
  ⟨none, 3000, some ⟨some ⟨some true⟩,
    some ⟨none, some true, none, none, some "https://example.com/jwks.json"⟩⟩⟩

/-- A configuration with the API key strategy explicitly disabled and the
JWT strategy left at its default (disabled): zero enabled strategies. -/
def cfgNone : Config := ⟨none, 3000, some ⟨some ⟨some false⟩, none⟩⟩

/-- A configuration with only the JWT strategy enabled (in-process). -/
def cfgJwtOnly : Config :=
  ⟨none, 3000, some ⟨some ⟨some false⟩,
    some ⟨none, some true, none, none, some "https://example.com/jwks.json"⟩⟩⟩

/-- A configuration with only the JWT strategy enabled, in proxy mode. -/
def cfgJwtProxy : Config :=
  ⟨none, 3000, some ⟨some ⟨some false⟩,
    some ⟨some true, some true, none, none, some "https://example.com/jwks.json"⟩⟩⟩

/-- A request presenting only an API key. -/
def reqApiOnly : Req := ⟨some "k", none, none⟩

/-- A request presenting no credentials at all. -/
def reqEmpty : Req := ⟨none, none, none⟩

/-- A request presenting only a Bearer token. -/
def reqBearer : Req := ⟨none, none, some "Bearer tok"⟩

/-- A JWT strategy configuration with a remote key set configured. -/
def sampleJwtCfg : JwtCfg := ⟨none, some true, none, none, some "https://example.com/jwks.json"⟩

/-- The JWT strategy configuration of cfgJwtProxy. -/
def sampleJwtProxyCfg : JwtCfg :=
  ⟨some true, some true, none, none, some "https://example.com/jwks.json"⟩

/-- An all-successful browser-verification oracle whose page-context
verifier answers r. -/
def sampleOracle (r : Bool) : BrowserVerifyOracle :=
  ⟨.ok 9, .ok 90, "verify-tab", .ok (), .ok r, .ok (), .ok ()⟩

/-- A browser-verification oracle whose page.evaluate step throws after the
tab was opened. -/
def sampleOracleEvalFail : BrowserVerifyOracle :=
  ⟨.ok 9, .ok 90, "verify-tab", .ok (), .error "evaluate failed", .ok (), .ok ()⟩

theorem BrowserSlots.get_set (s : BrowserSlots) (m m' : Bool) (v : Option Nat) :
    (s.set m v).get m' = if m' = m then v else s.get m' := by
  cases m <;> cases m' <;> simp [BrowserSlots.get, BrowserSlots.set]

theorem initializeBrowser_inv (st : BMState) (headless : Bool)
    (launch : Except String Nat) :
    TabModeInv (initializeBrowser st headless launch).2 := by
  unfold initializeBrowser close TabModeInv
  cases launch <;> simp

theorem openTab_inv (st : BMState) (h : TabModeInv st) (request : OpenTabRequest)
    (launch : Except String Nat) (newPage : Except String Nat) (freshId : String)
    (goto : Except String Unit) :
    TabModeInv (openTab st request launch newPage freshId goto).2 := by
  set m := request.headless.getD true with hm
  cases hb : st.browsers.get m with
  | none =>
    cases launch with
    | error e =>
      simp only [openTab, ← hm, hb, initializeBrowser, close]
      intro p hp
      simp at hp
    | ok b =>
      simp only [openTab, ← hm, hb, initializeBrowser, close]
      rw [BrowserSlots.get_set]
      simp only [if_pos rfl]
      cases newPage with
      | error e => intro p hp; simp at hp
      | ok pg =>
        have hnew : TabModeInv
            ⟨BrowserSlots.set ⟨none, none⟩ m (some b), setTab [] freshId ⟨pg, m⟩⟩ := by
          intro p hp
          simp [setTab] at hp
          subst hp
          simp [BrowserSlots.get_set]
        by_cases hu : request.url = "" <;> cases goto <;> simp [hu, hnew]
  | some b =>
    cases newPage with
    | error e =>
      simp only [openTab, ← hm, hb]
      exact h
    | ok pg =>
      simp only [openTab, ← hm, hb]
      have hnew : TabModeInv { st with tabs := setTab st.tabs freshId ⟨pg, m⟩ } := by
        intro p hp
        simp only [setTab, List.mem_cons, List.mem_filter] at hp
        rcases hp with hp | ⟨hp, _⟩
        · subst hp; simp [hb]
        · exact h p hp
      by_cases hu : request.url = "" <;> cases goto <;> simp [hu, hnew]

theorem closeTab_inv (st : BMState) (h : TabModeInv st) (tabId : String)
    (pageClose : Except String Unit) (browserClose : Except String Unit) :
    TabModeInv (closeTab st tabId pageClose browserClose).2 := by
  have hsub : TabModeInv { st with tabs := delTab st.tabs tabId } := by
    intro p hp
    simp only [delTab, List.mem_filter] at hp
    exact h p hp.1
  cases hl : st.tabs.lookup tabId with
  | none => simpa only [closeTab, hl] using h
  | some tab =>
    cases pageClose with
    | error e => simpa only [closeTab, hl] using h
    | ok _ =>
      simp only [closeTab, hl]
      cases hA : (delTab st.tabs tabId).any (fun p => p.2.visible == tab.visible) with
      | true => simpa [hA] using hsub
      | false =>
        cases hs : st.browsers.get tab.visible with
        | none => simpa [hA, hs] using hsub
        | some b =>
          cases browserClose with
          | error e => simpa [hA, hs] using hsub
          | ok _ =>
            simp only [hA, hs, Bool.false_eq_true, if_false]
            intro p hp
            have hpv : ¬ p.2.visible = tab.visible := by
              intro hv
              have : (delTab st.tabs tabId).any (fun q => q.2.visible == tab.visible) = true :=
                List.any_eq_true.mpr ⟨p, hp, by simp [hv]⟩
              rw [hA] at this
              exact Bool.false_ne_true this
            rw [BrowserSlots.get_set, if_neg hpv]
            exact h p (List.mem_filter.mp hp).1

theorem disconnectEvent_inv (st : BMState) (h : TabModeInv st) (headless : Bool) :
    TabModeInv (disconnectEvent st headless) := by
  intro p hp
  simp only [disconnectEvent, List.mem_filter, Bool.not_eq_eq_eq_not, Bool.not_true,
    beq_eq_false_iff_ne, ne_eq] at hp
  rcases hp with ⟨hp, hpv⟩
  simp only [disconnectEvent]
  rw [BrowserSlots.get_set, if_neg hpv]
  exact h p hp

theorem pageCloseEvent_inv (st : BMState) (h : TabModeInv st) (tabId : String) :
    TabModeInv (pageCloseEvent st tabId) := by
  intro p hp
  simp only [pageCloseEvent, delTab, List.mem_filter] at hp
  exact h p hp.1

theorem close_inv (st : BMState) : TabModeInv (close st) := by
  intro p hp
  simp [close] at hp

theorem step_preserves_inv {st st' : BMState} (h : TabModeInv st) (hs : Step st st') :
    TabModeInv st' := by
  cases hs with
  | initializeOp headless launch => exact initializeBrowser_inv st headless launch
  | openTabOp request launch newPage freshId goto =>
    exact openTab_inv st h request launch newPage freshId goto
  | closeTabOp tabId pageClose browserClose =>
    exact closeTab_inv st h tabId pageClose browserClose
  | closeOp => exact close_inv st
  | disconnectOp headless => exact disconnectEvent_inv st h headless
  | pageCloseOp tabId => exact pageCloseEvent_inv st h tabId

/-- Claim C9: in every registry state reachable by any sequence of completed
operations (initialize, openTab including its failure paths, closeTab,
close, and the browser-disconnected and page-close event handlers; the
remaining per-tab operations never write the registry state), every tab
tracked in the tabs map has a mode flag under which the browsers map holds
a non-null browser handle. -/
theorem tabModeInv_of_reachable {st : BMState} (h : Reachable st) : TabModeInv st := by
  induction h with
  | init => intro p hp; simp [initialState] at hp
  | step hr hstep ih => exact step_preserves_inv ih hstep

theorem tabModeInv_of_reachable_witness :
    TabModeInv (openTab initialState ⟨"https://example.com", some true⟩
      (.ok 1) (.ok 10) "tab-1" (.ok ())).2 :=
  tabModeInv_of_reachable
    (Reachable.step Reachable.init
      (Step.openTabOp initialState ⟨"https://example.com", some true⟩
        (.ok 1) (.ok 10) "tab-1" (.ok ())))

/-- Claim C2 (evaluation at the failing input): in End-to-end scenario C —
openTab with headless:true against a fresh manager, then openTab with
headless:false, every backend call succeeding — the second call finds the
headed slot empty and lazily initializes it, but initialize first runs
close(), which closes the running headless browser and clears the whole
tabs map; afterwards the headless slot is null, the first tab is no longer
tracked, and only the headed browser with the second tab remains.  The two
browser processes never run simultaneously, contradicting the claim. -/
theorem scenarioC_second_open_tears_down_first :
    scenarioCFirst.1 = .ok "tab-1" ∧
    scenarioCFirst.2 = ⟨⟨some 1, none⟩, [("tab-1", ⟨10, true⟩)]⟩ ∧
    scenarioCSecond.1 = .ok "tab-2" ∧
    scenarioCSecond.2.browsers.get true = none ∧
    scenarioCSecond.2.tabs.lookup "tab-1" = none ∧
    scenarioCSecond.2 = ⟨⟨none, some 2⟩, [("tab-2", ⟨20, false⟩)]⟩ := by
  refine ⟨rfl, rfl, rfl, rfl, rfl, rfl⟩

/-- Claim C8 (counterexample): a registry tracking one tab owned by the
headless mode lists that tab with headless = false, not the actual owning
mode flag true recorded in the registry. -/
theorem getTabs_headless_mismatch_counterexample :
    getTabs sampleState (fun _ => "https://example.com") (fun _ => "Example") =
      [⟨"t1", "https://example.com", "Example", false⟩] ∧
    sampleState.tabs.lookup "t1" = some ⟨5, true⟩ :=
  ⟨rfl, rfl⟩

/-- Claim C8 (amended): every entry in the list returned by getTabs has its
headless field equal to the literal false, regardless of the mode tracked
internally for that tab. -/
theorem getTabs_headless_always_false (st : BMState) (pageUrl pageTitle : Nat → String) :
    ∀ info ∈ getTabs st pageUrl pageTitle, info.headless = false := by
  intro info hi
  simp only [getTabs, List.mem_map] at hi
  obtain ⟨p, hp, hinfo⟩ := hi
  subst hinfo
  rfl

theorem getTabs_headless_always_false_witness :
    (⟨"t1", "https://example.com", "Example", false⟩ : TabInfo) ∈
      getTabs sampleState (fun _ => "https://example.com") (fun _ => "Example") ∧
    (⟨"t1", "https://example.com", "Example", false⟩ : TabInfo).headless = false :=
  ⟨by simp [getTabs, sampleState],
   getTabs_headless_always_false sampleState (fun _ => "https://example.com")
     (fun _ => "Example") ⟨"t1", "https://example.com", "Example", false⟩
     (by simp [getTabs, sampleState])⟩

/-- Claim C1: for a tab id not in the registry, each of the seventeen
per-tab operations answers TabNotFoundError whatever the backend would
have done; for a tracked id, a backend rejection with message e is
rethrown as a BrowserError whose message names the failed operation,
so each operation only ever produces the two domain error kinds. -/
theorem tab_ops_error_contract (st : BMState) (tabId : String)
    (url selector value script fn : String) (flag : Bool)
    (tmo : Option Nat) (vis : Option Bool) (owu : Option String)
    (e : String) (uo : Except String Unit) (so : Except String String)
    (bc : Except String Unit) :
    (st.tabs.lookup tabId = none →
      navigateTab st tabId url uo = .error (.tabNotFound tabId) ∧
      clickElement st tabId selector flag uo = .error (.tabNotFound tabId) ∧
      hoverElement st tabId selector uo = .error (.tabNotFound tabId) ∧
      fillField st tabId selector value uo = .error (.tabNotFound tabId) ∧
      selectOption st tabId selector value uo = .error (.tabNotFound tabId) ∧
      evaluateScript st tabId script so = .error (.tabNotFound tabId) ∧
      focusElement st tabId selector uo = .error (.tabNotFound tabId) ∧
      goBack st tabId uo = .error (.tabNotFound tabId) ∧
      goForward st tabId uo = .error (.tabNotFound tabId) ∧
      reloadTab st tabId owu uo = .error (.tabNotFound tabId) ∧
      waitForSelector st tabId selector tmo vis uo = .error (.tabNotFound tabId) ∧
      waitForFunction st tabId fn tmo uo = .error (.tabNotFound tabId) ∧
      waitForNavigation st tabId tmo owu uo = .error (.tabNotFound tabId) ∧
      getTabUrl st tabId so = .error (.tabNotFound tabId) ∧
      bringToFront st tabId uo = .error (.tabNotFound tabId) ∧
      screenshotTab st tabId flag so = .error (.tabNotFound tabId) ∧
      closeTab st tabId uo bc = (.error (.tabNotFound tabId), st)) ∧
    (st.tabs.lookup tabId ≠ none →
      navigateTab st tabId url (.error e) =
        .error (.browserError ("Failed to navigate tab: " ++ e)) ∧
      clickElement st tabId selector flag (.error e) =
        .error (.browserError ("Failed to click element: " ++ e)) ∧
      hoverElement st tabId selector (.error e) =
        .error (.browserError ("Failed to hover element: " ++ e)) ∧
      fillField st tabId selector value (.error e) =
        .error (.browserError ("Failed to fill field: " ++ e)) ∧
      selectOption st tabId selector value (.error e) =
        .error (.browserError ("Failed to select option: " ++ e)) ∧
      evaluateScript st tabId script (.error e) =
        .error (.browserError ("Failed to evaluate script: " ++ e)) ∧
      focusElement st tabId selector (.error e) =
        .error (.browserError ("Failed to focus element: " ++ e)) ∧
      goBack st tabId (.error e) =
        .error (.browserError ("Failed to go back: " ++ e)) ∧
      goForward st tabId (.error e) =
        .error (.browserError ("Failed to go forward: " ++ e)) ∧
      reloadTab st tabId owu (.error e) =
        .error (.browserError ("Failed to reload tab: " ++ e)) ∧
      waitForSelector st tabId selector tmo vis (.error e) =
        .error (.browserError ("Failed to wait for selector: " ++ e)) ∧
      waitForFunction st tabId fn tmo (.error e) =
        .error (.browserError ("Failed to wait for function: " ++ e)) ∧
      waitForNavigation st tabId tmo owu (.error e) =
        .error (.browserError ("Failed to wait for navigation: " ++ e)) ∧
      getTabUrl st tabId (.error e) =
        .error (.browserError ("Failed to get tab URL: " ++ e)) ∧
      bringToFront st tabId (.error e) =
        .error (.browserError ("Failed to bring tab to front: " ++ e)) ∧
      screenshotTab st tabId flag (.error e) =
        .error (.browserError ("Failed to take screenshot: " ++ e)) ∧
      (closeTab st tabId (.error e) bc).1 =
        .error (.browserError ("Failed to close tab: " ++ e))) := by
  constructor
  · intro h
    simp [navigateTab, clickElement, hoverElement, fillField, selectOption, evaluateScript,
      focusElement, goBack, goForward, reloadTab, waitForSelector, waitForFunction,
      waitForNavigation, getTabUrl, bringToFront, screenshotTab, closeTab, h]
  · intro h
    obtain ⟨tab, htab⟩ := Option.ne_none_iff_exists'.mp h
    simp [navigateTab, clickElement, hoverElement, fillField, selectOption, evaluateScript,
      focusElement, goBack, goForward, reloadTab, waitForSelector, waitForFunction,
      waitForNavigation, getTabUrl, bringToFront, screenshotTab, closeTab, htab]

theorem tab_ops_error_contract_witness :
    navigateTab sampleState "missing" "https://x" (.ok ()) =
      .error (.tabNotFound "missing") ∧
    navigateTab sampleState "t1" "https://x" (.error "boom") =
      .error (.browserError ("Failed to navigate tab: " ++ "boom")) := by
  constructor
  · exact ((tab_ops_error_contract sampleState "missing" "https://x" "s" "v" "sc" "f"
      false none none none "boom" (.ok ()) (.ok "") (.ok ())).1 (by decide)).1
  · exact ((tab_ops_error_contract sampleState "t1" "https://x" "s" "v" "sc" "f"
      false none none none "boom" (.ok ()) (.ok "") (.ok ())).2 (by decide)).1

/-- Claim C3: when closeTab succeeds on a tracked tab, then (a) if no other
tracked tab shares its mode, that mode's browser is closed and its slot set
to null, (b) if a sibling of the same mode remains, the browsers map is
left entirely unchanged; and a subsequent openTab against a state whose
slot for that mode is null performs a fresh launch, storing the newly
launched browser in the slot. -/
theorem closeTab_teardown (st : BMState) (tabId : String) (tab : Tab) (b nb : Nat)
    (st' : BMState) (htab : st.tabs.lookup tabId = some tab) :
    ((∀ p ∈ delTab st.tabs tabId, p.2.visible ≠ tab.visible) →
      st.browsers.get tab.visible = some b →
      closeTab st tabId (.ok ()) (.ok ()) =
        (.ok (), ⟨st.browsers.set tab.visible none, delTab st.tabs tabId⟩) ∧
      (st.browsers.set tab.visible none).get tab.visible = none) ∧
    ((∃ q ∈ delTab st.tabs tabId, q.2.visible = tab.visible) →
      closeTab st tabId (.ok ()) (.ok ()) =
        (.ok (), { st with tabs := delTab st.tabs tabId })) ∧
    (st'.browsers.get tab.visible = none →
      (openTab st' ⟨"", some tab.visible⟩ (.ok nb) (.ok 7) "fresh" (.ok ())).1 =
        .ok "fresh" ∧
      (openTab st' ⟨"", some tab.visible⟩ (.ok nb) (.ok 7) "fresh"
        (.ok ())).2.browsers.get tab.visible = some nb) := by
  refine ⟨?_, ?_, ?_⟩
  · intro hno hslot
    have hA : (delTab st.tabs tabId).any (fun q => q.2.visible == tab.visible) = false := by
      rw [Bool.eq_false_iff]
      intro hAt
      obtain ⟨q, hq, hqe⟩ := List.any_eq_true.mp hAt
      exact hno q hq (by simpa using hqe)
    constructor
    · simp [closeTab, htab, hA, hslot]
    · simp [BrowserSlots.get_set]
  · rintro ⟨q, hq, hqv⟩
    have hA : (delTab st.tabs tabId).any (fun r => r.2.visible == tab.visible) = true :=
      List.any_eq_true.mpr ⟨q, hq, by simp [hqv]⟩
    simp [closeTab, htab, hA]
  · intro hopen
    constructor
    · simp [openTab, hopen, initializeBrowser, close, BrowserSlots.get_set]
    · simp [openTab, hopen, initializeBrowser, close, BrowserSlots.get_set]

theorem closeTab_teardown_witness :
    closeTab sampleState "t1" (.ok ()) (.ok ()) =
      (.ok (), ⟨BrowserSlots.set ⟨some 1, none⟩ true none, delTab sampleState.tabs "t1"⟩) ∧
    closeTab sampleState2 "t1" (.ok ()) (.ok ()) =
      (.ok (), { sampleState2 with tabs := delTab sampleState2.tabs "t1" }) ∧
    (openTab initialState ⟨"", some true⟩ (.ok 2) (.ok 7) "fresh"
      (.ok ())).2.browsers.get true = some 2 := by
  refine ⟨?_, ?_, ?_⟩
  · exact ((closeTab_teardown sampleState "t1" ⟨5, true⟩ 1 2 initialState
      (by decide)).1 (by decide) (by decide)).1
  · exact (closeTab_teardown sampleState2 "t1" ⟨5, true⟩ 1 2 initialState
      (by decide)).2.1 ⟨("t2", ⟨6, true⟩), by decide, by decide⟩
  · exact ((closeTab_teardown sampleState "t1" ⟨5, true⟩ 1 2 initialState
      (by decide)).2.2 (by decide)).2

theorem jwtEnabled_isSome {config : Config} (h : jwtEnabled config = true) :
    (config.auth.bind (fun a => a.jwt)).isSome = true := by
  unfold jwtEnabled at h
  cases hj : config.auth.bind (fun a => a.jwt) with
  | none => rw [hj] at h; simp at h
  | some c => rfl

/-- Claim C4: with both strategies enabled the middleware evaluates the
API-key check first and the JWT check second, stopping at the first
success: a request whose API key matches is authorized whatever the JWT
verification would have answered (so no JWT verification outcome can
change the result), and a request whose JWT strategy succeeds is
authorized even when its API key is absent or wrong. -/
theorem auth_first_success_short_circuit (config : Config) (validKey : String)
    (req : Req) (o o2 : Except String Unit)
    (hak : apiKeyEnabled config = true) (hjw : jwtEnabled config = true) :
    authStrategies config validKey req o =
      [apiKeyStrategy req validKey,
       jwtStrategy req (config.auth.bind (fun a => a.jwt)) o] ∧
    (apiKeyStrategy req validKey = true →
      createAuthMiddleware config validKey req o = .nextCalled ∧
      createAuthMiddleware config validKey req o =
        createAuthMiddleware config validKey req o2) ∧
    (jwtStrategy req (config.auth.bind (fun a => a.jwt)) o = true →
      createAuthMiddleware config validKey req o = .nextCalled) := by
  have hsome := jwtEnabled_isSome hjw
  have hlist : authStrategies config validKey req o =
      [apiKeyStrategy req validKey,
       jwtStrategy req (config.auth.bind (fun a => a.jwt)) o] := by
    simp [authStrategies, hak, hjw, hsome]
  have hlist2 : authStrategies config validKey req o2 =
      [apiKeyStrategy req validKey,
       jwtStrategy req (config.auth.bind (fun a => a.jwt)) o2] := by
    simp [authStrategies, hak, hjw, hsome]
  refine ⟨hlist, ?_, ?_⟩
  · intro hkey
    constructor
    · simp [createAuthMiddleware, hlist, runStrategies, hkey]
    · simp [createAuthMiddleware, hlist, hlist2, runStrategies, hkey]
  · intro hjwt
    by_cases hkey : apiKeyStrategy req validKey = true
    · simp [createAuthMiddleware, hlist, runStrategies, hkey]
    · rw [Bool.not_eq_true] at hkey
      simp [createAuthMiddleware, hlist, runStrategies, hkey, hjwt]

theorem auth_first_success_short_circuit_witness :
    apiKeyStrategy reqApiOnly "k" = true ∧
    createAuthMiddleware cfgBoth "k" reqApiOnly (.error "jwks unreachable") =
      .nextCalled :=
  ⟨by decide,
   ((auth_first_success_short_circuit cfgBoth "k" reqApiOnly (.error "jwks unreachable")
     (.ok ()) (by decide) (by decide)).2.1 (by decide)).1⟩

/-- Claim C5: the middleware answers 401/NO_AUTH_CONFIGURED exactly when
zero strategies are enabled (apiKey.enabled set to false and jwt.enabled
not true), for every request; when at least one strategy is enabled and
every enabled strategy fails it instead answers
401/INVALID_CREDENTIALS carrying the supported-methods list; and in
either denial the next handler is not called. -/
theorem auth_fail_closed_codes (config : Config) (validKey : String) (req : Req)
    (o : Except String Unit) :
    ((createAuthMiddleware config validKey req o).code = some "NO_AUTH_CONFIGURED" ↔
      (apiKeyEnabled config = false ∧ jwtEnabled config = false)) ∧
    (apiKeyEnabled config = false ∧ jwtEnabled config = false →
      createAuthMiddleware config validKey req o =
        .denied 401 "NO_AUTH_CONFIGURED" noAuthMsg) ∧
    ((apiKeyEnabled config = true ∨ jwtEnabled config = true) →
      runStrategies (authStrategies config validKey req o) = false →
      createAuthMiddleware config validKey req o =
        .denied 401 "INVALID_CREDENTIALS" (invalidCredsMsg config)) ∧
    (∀ s c m, createAuthMiddleware config validKey req o = .denied s c m →
      createAuthMiddleware config validKey req o ≠ .nextCalled) := by
  have hdisc : ∀ s c m, createAuthMiddleware config validKey req o = .denied s c m →
      createAuthMiddleware config validKey req o ≠ .nextCalled := by
    intro s c m he hn
    rw [he] at hn
    exact AuthOutcome.noConfusion hn
  by_cases hak : apiKeyEnabled config = true
  · have hne : (authStrategies config validKey req o).isEmpty = false := by
      simp [authStrategies, hak]
    refine ⟨⟨?_, ?_⟩, ?_, ?_, hdisc⟩
    · intro hc
      exfalso
      by_cases hr : runStrategies (authStrategies config validKey req o) = true
      · simp [createAuthMiddleware, hne, hr, AuthOutcome.code] at hc
      · rw [Bool.not_eq_true] at hr
        simp [createAuthMiddleware, hne, hr, AuthOutcome.code] at hc
    · rintro ⟨hfa, _⟩
      rw [hak] at hfa
      exact absurd hfa (by simp)
    · rintro ⟨hfa, _⟩
      rw [hak] at hfa
      exact absurd hfa (by simp)
    · intro _ hr
      simp [createAuthMiddleware, hne, hr]
  · rw [Bool.not_eq_true] at hak
    by_cases hjw : jwtEnabled config = true
    · have hne : (authStrategies config validKey req o).isEmpty = false := by
        simp [authStrategies, hak, hjw, jwtEnabled_isSome hjw]
      refine ⟨⟨?_, ?_⟩, ?_, ?_, hdisc⟩
      · intro hc
        exfalso
        by_cases hr : runStrategies (authStrategies config validKey req o) = true
        · simp [createAuthMiddleware, hne, hr, AuthOutcome.code] at hc
        · rw [Bool.not_eq_true] at hr
          simp [createAuthMiddleware, hne, hr, AuthOutcome.code] at hc
      · rintro ⟨_, hfj⟩
        rw [hjw] at hfj
        exact absurd hfj (by simp)
      · rintro ⟨_, hfj⟩
        rw [hjw] at hfj
        exact absurd hfj (by simp)
      · intro _ hr
        simp [createAuthMiddleware, hne, hr]
    · rw [Bool.not_eq_true] at hjw
      have hemp : (authStrategies config validKey req o).isEmpty = true := by
        simp [authStrategies, hak, hjw]
      refine ⟨⟨?_, ?_⟩, ?_, ?_, hdisc⟩
      · intro _
        exact ⟨hak, hjw⟩
      · intro _
        simp [createAuthMiddleware, hemp, AuthOutcome.code]
      · intro _
        simp [createAuthMiddleware, hemp]
      · intro hor _
        rcases hor with h1 | h1
        · rw [hak] at h1
          exact absurd h1 (by simp)
        · rw [hjw] at h1
          exact absurd h1 (by simp)

theorem auth_fail_closed_codes_witness :
    createAuthMiddleware cfgNone "k" reqApiOnly (.ok ()) =
      .denied 401 "NO_AUTH_CONFIGURED" noAuthMsg ∧
    createAuthMiddleware cfgBoth "k" reqEmpty (.error "bad token") =
      .denied 401 "INVALID_CREDENTIALS" (invalidCredsMsg cfgBoth) :=
  ⟨(auth_fail_closed_codes cfgNone "k" reqApiOnly (.ok ())).2.1 ⟨by decide, by decide⟩,
   (auth_fail_closed_codes cfgBoth "k" reqEmpty (.error "bad token")).2.2.1
     (Or.inl (by decide)) (by decide)⟩

/-- Claim C6: the JWT strategy is a total boolean function of the request:
with a missing Authorization header, or one not starting with "Bearer ",
it answers false without the verification outcome mattering; and every
verification failure — missing jwt config, missing (or empty, which is
falsy) jwksUrl, or the single jwtVerify call rejecting for any reason
(network, bad signature, expiry, wrong issuer or audience, malformed
token) — collapses to false, so with only the JWT strategy enabled such a
request receives the generic invalid-credentials response. -/
theorem jwt_strategy_never_throws (req : Req) (jwtCfg : Option JwtCfg) (c : JwtCfg)
    (token : String) (o : Except String Unit) (e : String)
    (config : Config) (validKey : String) :
    (req.authorization = none → jwtStrategy req jwtCfg o = false) ∧
    (∀ h, req.authorization = some h → strStartsWith h "Bearer " = false →
      jwtStrategy req jwtCfg o = false) ∧
    verifyJWT token (some c) (.error e) = false ∧
    verifyJWT token none o = false ∧
    (c.jwksUrl = none → verifyJWT token (some c) o = false) ∧
    (apiKeyEnabled config = false → jwtEnabled config = true →
      jwtStrategy req (config.auth.bind (fun a => a.jwt)) o = false →
      createAuthMiddleware config validKey req o =
        .denied 401 "INVALID_CREDENTIALS" (invalidCredsMsg config)) := by
  refine ⟨?_, ?_, ?_, rfl, ?_, ?_⟩
  · intro h
    simp [jwtStrategy, h]
  · intro h hh hb
    simp [jwtStrategy, hh, hb]
  · cases hju : c.jwksUrl <;> simp [verifyJWT, hju]
  · intro h
    simp [verifyJWT, h]
  · intro hak hjw hs
    have hsome := jwtEnabled_isSome hjw
    have hlist : authStrategies config validKey req o =
        [jwtStrategy req (config.auth.bind (fun a => a.jwt)) o] := by
      simp [authStrategies, hak, hjw, hsome]
    simp [createAuthMiddleware, hlist, runStrategies, hs]

theorem jwt_strategy_never_throws_witness :
    jwtStrategy ⟨none, none, some "Basic abc"⟩ (some sampleJwtCfg) (.ok ()) = false ∧
    verifyJWT "tok" (some sampleJwtCfg) (.error "bad signature") = false ∧
    createAuthMiddleware cfgJwtOnly "k" ⟨none, none, some "Basic abc"⟩ (.ok ()) =
      .denied 401 "INVALID_CREDENTIALS" (invalidCredsMsg cfgJwtOnly) := by
  refine ⟨?_, ?_, ?_⟩
  · exact (jwt_strategy_never_throws ⟨none, none, some "Basic abc"⟩ (some sampleJwtCfg)
      sampleJwtCfg "tok" (.ok ()) "bad signature" cfgJwtOnly "k").2.1
      "Basic abc" rfl (by decide)
  · exact (jwt_strategy_never_throws ⟨none, none, some "Basic abc"⟩ (some sampleJwtCfg)
      sampleJwtCfg "tok" (.ok ()) "bad signature" cfgJwtOnly "k").2.2.1
  · exact (jwt_strategy_never_throws ⟨none, none, some "Basic abc"⟩ (some sampleJwtCfg)
      sampleJwtCfg "tok" (.ok ()) "bad signature" cfgJwtOnly "k").2.2.2.2.2
      (by decide) (by decide) (by decide)

theorem lookup_delTab (tabs : List (String × Tab)) (k : String) :
    (delTab tabs k).lookup k = none := by
  unfold delTab
  induction tabs with
  | nil => rfl
  | cons hd tl ih =>
    obtain ⟨k1, v1⟩ := hd
    by_cases hk : k1 = k
    · have h1 : (k1 == k) = true := beq_iff_eq.mpr hk
      simpa [List.filter_cons, h1] using ih
    · have h1 : (k1 == k) = false := beq_eq_false_iff_ne.mpr hk
      have h2 : (k == k1) = false := beq_eq_false_iff_ne.mpr (Ne.symm hk)
      simp [List.filter_cons, h1, List.lookup, h2, ih]

theorem verifyUrl_ne_empty (port : Nat) :
    ("http://localhost:" ++ toString port ++ "/jwt-verify") ≠ "" := by
  intro hc
  have h0 : ("http://localhost:" ++ toString port ++ "/jwt-verify").length = 0 := by
    rw [hc]; rfl
  have h17 : "http://localhost:".length = 17 := rfl
  rw [String.length_append, String.length_append, h17] at h0
  omega

theorem openTab_ok_lookup (st : BMState) (request : OpenTabRequest) (m : Bool)
    (b p : Nat) (freshId : String) (hm : request.headless = some m)
    (hurl : request.url ≠ "") :
    (openTab st request (.ok b) (.ok p) freshId (.ok ())).1 = .ok freshId ∧
    (openTab st request (.ok b) (.ok p) freshId (.ok ())).2.tabs.lookup freshId =
      some ⟨p, m⟩ := by
  cases hsb : st.browsers.get m with
  | none =>
    simp [openTab, hm, hsb, initializeBrowser, close, BrowserSlots.get_set, hurl,
      setTab, List.lookup]
  | some b2 =>
    simp [openTab, hm, hsb, hurl, setTab, List.lookup]

theorem closeTab_ok_tabs (st : BMState) (tabId : String) (tab : Tab)
    (htab : st.tabs.lookup tabId = some tab) :
    (closeTab st tabId (.ok ()) (.ok ())).1 = .ok () ∧
    (closeTab st tabId (.ok ()) (.ok ())).2.tabs = delTab st.tabs tabId := by
  simp only [closeTab, htab]
  cases hA : (delTab st.tabs tabId).any (fun p => p.2.visible == tab.visible) with
  | false => cases hs : st.browsers.get tab.visible <;> simp [hA, hs]
  | true => simp [hA]

theorem verifyJWTInBrowser_ok_run (st : BMState) (token : String) (c : JwtCfg)
    (port : Nat) (o : BrowserVerifyOracle) (b p : Nat) (r : Bool)
    (hlaunch : o.launch = .ok b) (hnew : o.newPage = .ok p)
    (hgoto : o.goto = .ok ()) (heval : o.evalResult = .ok r)
    (hpc : o.pageClose = .ok ()) (hbc : o.browserClose = .ok ()) :
    (verifyJWTInBrowser st token c port o).1 = r ∧
    (verifyJWTInBrowser st token c port o).2.tabs.lookup o.freshId = none := by
  have hurl := verifyUrl_ne_empty port
  obtain ⟨ho1, ho2⟩ := openTab_ok_lookup st
    ⟨"http://localhost:" ++ toString port ++ "/jwt-verify", some true⟩ true b p
    o.freshId rfl hurl
  unfold verifyJWTInBrowser
  simp only [hlaunch, hnew, hgoto, heval, hpc, hbc]
  have hsplit : openTab st
      ⟨"http://localhost:" ++ toString port ++ "/jwt-verify", some true⟩
      (.ok b) (.ok p) o.freshId (.ok ()) =
      (.ok o.freshId, (openTab st
        ⟨"http://localhost:" ++ toString port ++ "/jwt-verify", some true⟩
        (.ok b) (.ok p) o.freshId (.ok ())).2) := by
    rw [← ho1]
  rw [hsplit]
  simp only [getPageByTabId, ho2, Option.map_some']
  obtain ⟨hc1, hc2⟩ := closeTab_ok_tabs _ o.freshId ⟨p, true⟩ ho2
  have hcsplit : closeTab (openTab st
      ⟨"http://localhost:" ++ toString port ++ "/jwt-verify", some true⟩
      (.ok b) (.ok p) o.freshId (.ok ())).2 o.freshId (.ok ()) (.ok ()) =
      (.ok (), (closeTab (openTab st
        ⟨"http://localhost:" ++ toString port ++ "/jwt-verify", some true⟩
        (.ok b) (.ok p) o.freshId (.ok ())).2 o.freshId (.ok ()) (.ok ())).2) := by
    rw [← hc1]
  rw [hcsplit]
  constructor
  · cases r <;> simp
  · rw [hc2]
    exact lookup_delTab _ _

/-- Claim C10: when the page-evaluate step of browser-proxied JWT
verification throws after the verification tab was opened (launch, page
creation and navigation all succeeded), verifyJWTInBrowser answers false —
the request is denied — but the verification tab it opened stays tracked
in the registry under its fresh id: the open/evaluate/close cycle is not
rolled back on error. -/
theorem jwt_proxy_eval_failure_leaks_tab (st : BMState) (token : String)
    (c : JwtCfg) (port : Nat) (o : BrowserVerifyOracle) (b p : Nat) (e : String)
    (hlaunch : o.launch = .ok b) (hnew : o.newPage = .ok p)
    (hgoto : o.goto = .ok ()) (heval : o.evalResult = .error e) :
    (verifyJWTInBrowser st token c port o).1 = false ∧
    (verifyJWTInBrowser st token c port o).2.tabs.lookup o.freshId =
      some ⟨p, true⟩ := by
  have hurl := verifyUrl_ne_empty port
  obtain ⟨ho1, ho2⟩ := openTab_ok_lookup st
    ⟨"http://localhost:" ++ toString port ++ "/jwt-verify", some true⟩ true b p
    o.freshId rfl hurl
  unfold verifyJWTInBrowser
  simp only [hlaunch, hnew, hgoto, heval]
  have hsplit : openTab st
      ⟨"http://localhost:" ++ toString port ++ "/jwt-verify", some true⟩
      (.ok b) (.ok p) o.freshId (.ok ()) =
      (.ok o.freshId, (openTab st
        ⟨"http://localhost:" ++ toString port ++ "/jwt-verify", some true⟩
        (.ok b) (.ok p) o.freshId (.ok ())).2) := by
    rw [← ho1]
  rw [hsplit]
  simp only [getPageByTabId, ho2, Option.map_some]
  exact ⟨rfl, ho2⟩

theorem jwt_proxy_eval_failure_leaks_tab_witness :
    (verifyJWTInBrowser initialState "tok" sampleJwtProxyCfg 3000
      sampleOracleEvalFail).1 = false ∧
    (verifyJWTInBrowser initialState "tok" sampleJwtProxyCfg 3000
      sampleOracleEvalFail).2.tabs.lookup "verify-tab" = some ⟨90, true⟩ :=
  jwt_proxy_eval_failure_leaks_tab initialState "tok" sampleJwtProxyCfg 3000
    sampleOracleEvalFail 9 90 "evaluate failed" rfl rfl rfl rfl

/-- Claim C7: with jwt.proxy set and a Bearer token present (API key
strategy disabled so the JWT strategy decides), the middleware verifies the
token through the browser round trip — open a headless tab on the
verification page, evaluate the page-context verifier, close the tab — and
authorizes the request exactly when the page reported "valid"; the result
does not depend on the in-process JWKS verification outcome, and the
verification tab is no longer tracked afterwards. -/
theorem jwt_proxy_browser_verification (config : Config) (validKey : String)
    (req : Req) (st : BMState) (o : BrowserVerifyOracle)
    (inProc inProc2 : Except String Unit) (c : JwtCfg) (authHeader : String)
    (b p : Nat) (r : Bool)
    (hak : apiKeyEnabled config = false) (hjw : jwtEnabled config = true)
    (hcfg : config.auth.bind (fun a => a.jwt) = some c)
    (hproxy : c.proxy = some true)
    (hauth : req.authorization = some authHeader)
    (hbear : strStartsWith authHeader "Bearer " = true)
    (hlaunch : o.launch = .ok b) (hnew : o.newPage = .ok p)
    (hgoto : o.goto = .ok ()) (heval : o.evalResult = .ok r)
    (hpc : o.pageClose = .ok ()) (hbc : o.browserClose = .ok ()) :
    ((createAuthMiddlewareProxy config validKey req st o inProc).1 = .nextCalled ↔
      r = true) ∧
    (createAuthMiddlewareProxy config validKey req st o inProc =
      createAuthMiddlewareProxy config validKey req st o inProc2) ∧
    (createAuthMiddlewareProxy config validKey req st o inProc).2.tabs.lookup
      o.freshId = none := by
  obtain ⟨hv1, hv2⟩ := verifyJWTInBrowser_ok_run st (authHeader.drop 7) c config.port
    o b p r hlaunch hnew hgoto heval hpc hbc
  have hsome : (config.auth.bind (fun a => a.jwt)).isSome = true := by
    rw [hcfg]; rfl
  have hstrat : ∀ ip : Except String Unit, jwtStrategyProxy req config st o ip =
      verifyJWTInBrowser st (authHeader.drop 7) c config.port o := by
    intro ip
    simp [jwtStrategyProxy, hauth, hbear, hcfg, hproxy]
  have hveq : verifyJWTInBrowser st (authHeader.drop 7) c config.port o =
      (r, (verifyJWTInBrowser st (authHeader.drop 7) c config.port o).2) := by
    rw [← hv1]
  have hmw : ∀ ip : Except String Unit,
      createAuthMiddlewareProxy config validKey req st o ip =
      (if r then AuthOutcome.nextCalled
       else .denied 401 "INVALID_CREDENTIALS" (invalidCredsMsg config),
       (verifyJWTInBrowser st (authHeader.drop 7) c config.port o).2) := by
    intro ip
    rw [createAuthMiddlewareProxy]
    simp only [hak, hjw, hsome, Bool.not_false, Bool.and_self, Bool.true_and,
      Bool.false_and, Bool.and_true, Bool.not_true, Bool.false_eq_true, if_false,
      Bool.and_false]
    rw [hstrat ip, hveq]
    cases r <;> simp
  refine ⟨?_, ?_, ?_⟩
  · rw [(hmw inProc)]
    cases r <;> simp
  · rw [hmw inProc, hmw inProc2]
  · rw [hmw inProc]
    cases r <;> simpa using hv2

theorem jwt_proxy_browser_verification_witness :
    (createAuthMiddlewareProxy cfgJwtProxy "k" reqBearer initialState
      (sampleOracle true) (.error "in-process disabled")).1 = .nextCalled ∧
    (createAuthMiddlewareProxy cfgJwtProxy "k" reqBearer initialState
      (sampleOracle true) (.error "in-process disabled")).2.tabs.lookup
      "verify-tab" = none := by
  have h := jwt_proxy_browser_verification cfgJwtProxy "k" reqBearer initialState
    (sampleOracle true) (.error "in-process disabled") (.ok ()) sampleJwtProxyCfg
    "Bearer tok" 9 90 true (by decide) (by decide) (by decide) (by decide)
    (by decide) (by decide) rfl rfl rfl rfl rfl rfl
  exact ⟨h.1.mpr rfl, h.2.2⟩

end PCS
